import Mathlib

/-!
Shallow embedding of the obsidian-home-tab search core:
the match-intent classifier (`src/utils/matchAnalyzer.ts`), the relevance
re-ranking comparator (`src/suggester/fuzzySearch.ts`), and the incremental
catalog updater (`HomeTabFileSuggester` in the suggester module).

Modelling conventions:
* JavaScript numbers are modelled by `ℚ` (the computations at stake are
  ratios of small naturals and fixed decimal constants; no claim exercises
  floating-point rounding).
* JavaScript strings are modelled by Lean `String` (sequences of Unicode
  scalar values); `toLowerCase` and `trim` are modelled by `jsToLower`
  and `jsTrim` below (computed over character lists so that the kernel can
  evaluate them).
* A JavaScript value that may be `undefined` is modelled by `Option`;
  truthiness of an optional string (`if (x)`) is `jsTruthy`.
* JavaScript object identity (used by `Array.prototype.includes` on object
  elements, which compares references, not contents) is modelled by an
  explicit allocation id `oid` on each entry.
-/

namespace HomeTab

/-- Truthiness of an optional JavaScript string: `undefined` and `""` are
falsy, every other string is truthy. -/
def jsTruthy : Option String → Bool
  | none => false
  | some s => !s.isEmpty

/-- Models JavaScript `String.prototype.toLowerCase` (ASCII case mapping),
computed over the character list. -/
def jsToLower (s : String) : String :=
  ⟨s.data.map Char.toLower⟩

/-- Models JavaScript `String.prototype.trim`: strip leading and trailing
whitespace, computed over the character list. -/
def jsTrim (s : String) : String :=
  ⟨((s.data.dropWhile Char.isWhitespace).reverse.dropWhile
      Char.isWhitespace).reverse⟩

/-- One searchable entry (`SearchFile` in `fuzzySearch.ts`). The `oid` field
models JavaScript object identity (each allocated object gets a distinct id);
it is not a TypeScript field. Fields not used by any claim are omitted. -/
structure SearchFile where
  name : String := ""
  basename : String := ""
  path : String := ""
  isCreated : Bool := true
  isUnresolved : Bool := false
  oid : Nat := 0
  deriving Repr, DecidableEq

/-- One per-field match reported by Fuse (`Fuse.FuseResultMatch`):
field key, matched field value (optional in the Fuse typings) and the
inclusive `[start, end]` index spans. -/
structure FuseMatch where
  key : String
  value : Option String := none
  indices : List (Nat × Nat) := []
  deriving Repr, DecidableEq

/-- One raw candidate (`Fuse.FuseResult<SearchFile>`): the entry, the base
score (optional: the code reads it as `score ?? 1`) and the match list
(the code reads it as `matches || []`, so a plain list loses nothing).
The source field name `matches` is a reserved token in Lean, hence
`matchList`. -/
structure FuseResult where
  item : SearchFile
  score : Option ℚ := none
  matchList : List FuseMatch := []
  deriving Repr, DecidableEq

/-- Match intent (enum `MatchIntent` in `matchAnalyzer.ts`).
Constructors correspond to `EXACT_FILE`, `FILE_ALIAS`, `FILE_PARTIAL`,
`TITLE_MATCH`, `HEADING_CONTENT` in source order. -/
inductive MatchIntent where
  | exactFile
  | fileAlias
  | partialFile
  | titleMatch
  | headingContent
  deriving Repr, DecidableEq

/-- The `displayInfo` record of a `MatchAnalysis`. -/
structure DisplayInfo where
  showHeading : Bool
  showAlias : Bool
  showTitle : Bool
  highlightType : String
  primaryMatch : String
  matchedAlias : Option String := none
  matchedTitle : Option String := none
  deriving Repr, DecidableEq

/-- Result of the classifier (`MatchAnalysis` in `matchAnalyzer.ts`). -/
structure MatchAnalysis where
  intent : MatchIntent
  confidence : ℚ
  shouldJumpToHeading : Bool
  matchedHeading : Option String := none
  displayInfo : DisplayInfo
  deriving Repr, DecidableEq

/-- The plugin settings consumed by the analyzer. `headingJumpStrategy` is
kept as a string, as in the source (`settings.headingJumpStrategy || 'smart'`
defaults the empty/unset value). -/
structure HomeTabSettings where
  autoJumpToHeading : Bool := true
  headingJumpStrategy : String := "smart"
  deriving Repr, DecidableEq

/-! ## Levenshtein distance and similarity (`matchAnalyzer.ts` 306-345) -/

/-- One inner iteration (over `j`, i.e. over `str1`) of the dynamic-programming
loop of `MatchAnalyzer.levenshteinDistance`: given the character `c2 = str2[i-1]`,
the remaining columns of `str1`, the tail of the previous row starting at the
diagonal cell `matrix[i-1][j-1]`, and the cell to the left `matrix[i][j-1]`,
produce the cells `matrix[i][j..]`. -/
def levRowAux (c2 : Char) : List Char → List Nat → Nat → List Nat
  | [], _, _ => []
  | c1 :: cs, prev, left =>
    match prev with
    | [] => []
    | diag :: rest =>
      let up := rest.headD 0
      let cur := if c2 = c1 then diag else min (min (diag + 1) (left + 1)) (up + 1)
      cur :: levRowAux c2 cs rest cur

/-- `MatchAnalyzer.levenshteinDistance(str1, str2)`: classic Levenshtein
distance computed row by row; row `i` ranges over `str2`, column `j` over
`str1`, with `matrix[0][j] = j` and `matrix[i][0] = i`, and the final value
is `matrix[str2.length][str1.length]`. -/
def levenshteinDistance (str1 str2 : List Char) : Nat :=
  let row0 := List.range (str1.length + 1)
  let final := str2.foldl
    (fun (acc : List Nat × Nat) c2 =>
      let i := acc.2 + 1
      (i :: levRowAux c2 str1 acc.1 i, i))
    (row0, 0)
  final.1.getLastD 0

/-- `MatchAnalyzer.calculateSimilarity(str1, str2)`: normalized Levenshtein
similarity `(longer.length - distance) / longer.length`, with the longer
string picked first and an early `1.0` when both strings are empty. -/
def calculateSimilarity (str1 str2 : String) : ℚ :=
  let longer := if str1.length > str2.length then str1 else str2
  let shorter := if str1.length > str2.length then str2 else str1
  if longer.length = 0 then 1
  else
    let distance := levenshteinDistance longer.data shorter.data
    ((longer.length : ℚ) - (distance : ℚ)) / (longer.length : ℚ)

/-! ## Confidence (`MatchAnalyzer.calculateMatchConfidence`, 263-301) -/

/-- The longest contiguous matched run: `maxMatchLength` of the source,
`Math.max` over `end - start + 1` for all spans, starting from `0`.
(`Nat` subtraction truncates exactly where the JavaScript `Math.max` with
initial `0` would discard a negative length of a degenerate span.) -/
def maxMatchLength (indices : List (Nat × Nat)) : Nat :=
  indices.foldl (fun acc p => max acc (p.2 + 1 - p.1)) 0

/-- `MatchAnalyzer.calculateMatchConfidence(match, query)`.
`0` when the match has no value (or an empty one, which is falsy); `1` when
the lowercased value equals the lowercased query; otherwise
`lengthRatio * positionWeight * similarity`.
The `indices = []` case of `positionWeight` is unreachable for a real Fuse
match (the JavaScript would fault reading `indices[0][0]`); we return `0`
there and theorems about this function assume a nonempty span list. -/
def calculateMatchConfidence (m : FuseMatch) (query : String) : ℚ :=
  match m.value with
  | none => 0
  | some v =>
    if v.isEmpty then 0
    else
      let value := jsToLower v
      let normalizedQuery := jsToLower query
      if value = normalizedQuery then 1
      else
        let lengthRatio : ℚ :=
          min ((maxMatchLength m.indices : ℚ) / (normalizedQuery.length : ℚ)) 1
        let positionWeight : ℚ :=
          match m.indices with
          | [] => 0
          | (s, _) :: _ => if s = 0 then 1 else 7/10
        let similarity := calculateSimilarity value normalizedQuery
        lengthRatio * positionWeight * similarity

/-! ## Spec-side confidence (refinement reference, §4.3.1 of the spec) -/

/-- Modelled from the spec (§4.3.1), for comparison with
`calculateMatchConfidence`: normalized edit-distance similarity
`(maxLen − editDistance) / maxLen`. Classic Levenshtein distance is
symmetric, so we fix the executable argument order as (longer, shorter);
this choice is immaterial to the spec's words. -/
def specSimilarity (a b : String) : ℚ :=
  let maxLen := max a.length b.length
  let longer := if a.length > b.length then a else b
  let shorter := if a.length > b.length then b else a
  if maxLen = 0 then 1
  else
    ((maxLen : ℚ) - (levenshteinDistance longer.data shorter.data : ℚ))
      / (maxLen : ℚ)

/-- Modelled from the spec (§4.3.1), for comparison with
`calculateMatchConfidence`:
`confidence = lengthRatio × positionWeight × similarity` with
`lengthRatio = min(longestContiguousMatchedRun / queryLength, 1)`,
`positionWeight = 1.0` if the match starts at index 0 else `0.7`, and
`similarity` the normalized edit-distance similarity between the field value
and the query. -/
def specConfidence (value : String) (indices : List (Nat × Nat)) (query : String) : ℚ :=
  let lengthRatio : ℚ := min ((maxMatchLength indices : ℚ) / (query.length : ℚ)) 1
  let positionWeight : ℚ :=
    match indices with
    | [] => 7/10
    | (s, _) :: _ => if s = 0 then 1 else 7/10
  lengthRatio * positionWeight * specSimilarity value query

/-! ## Intent classification (`MatchAnalyzer.calculateMatchIntent`, 114-258) -/

/-- The alias-selection loop of `calculateMatchIntent` (source lines
164-185): scans the alias matches keeping the best `(bestAlias,
bestConfidence, isExactMatch)` state; an alias is considered only if its
value is a truthy string; the loop updates on `exactMatch || confidence >
bestConfidence` and breaks on an exact match. -/
def bestAliasLoop (normalizedQuery : String) :
    List FuseMatch → Option String × ℚ × Bool → Option String × ℚ × Bool
  | [], st => st
  | m :: rest, st =>
    match m.value with
    | some v =>
      if v.isEmpty then bestAliasLoop normalizedQuery rest st
      else
        let exactMatch := jsToLower v = normalizedQuery
        let confidence := calculateMatchConfidence m normalizedQuery
        if exactMatch ∨ confidence > st.2.1 then
          if exactMatch then (some v, confidence, exactMatch)
          else bestAliasLoop normalizedQuery rest (some v, confidence, exactMatch)
        else bestAliasLoop normalizedQuery rest st
    | none => bestAliasLoop normalizedQuery rest st

/-- `MatchAnalyzer.calculateMatchIntent`: the priority cascade.  The source
checks, in order: basename match (exact → `EXACT_FILE`, otherwise
`FILE_PARTIAL`), alias matches (`FILE_ALIAS`), title match above the 0.6
threshold (`TITLE_MATCH`), heading match (`HEADING_CONTENT`), and the
`FILE_PARTIAL`/0.3 fallback.  The `aliasMatch` parameter is passed but, as
in the source, unused (the alias block re-filters `matches`). -/
def calculateMatchIntent (query : String) (matchList : List FuseMatch)
    (basenameMatch aliasMatch titleMatch headingMatch : Option FuseMatch)
    (item : SearchFile) : MatchAnalysis :=
  let _ := aliasMatch
  let normalizedQuery := jsTrim (jsToLower query)
  let fallback : MatchAnalysis :=
    { intent := .partialFile
      confidence := 3/10
      shouldJumpToHeading := false
      displayInfo :=
        { showHeading := false, showAlias := false, showTitle := false,
          highlightType := "file", primaryMatch := item.basename } }
  let headingStep : MatchAnalysis :=
    match headingMatch with
    | some hm =>
      match hm.value with
      | some v =>
        { intent := .headingContent
          confidence := calculateMatchConfidence hm normalizedQuery
          shouldJumpToHeading := false
          matchedHeading := some v
          displayInfo :=
            { showHeading := true, showAlias := false, showTitle := false,
              highlightType := "heading", primaryMatch := v } }
      | none => fallback
    | none => fallback
  let titleStep : MatchAnalysis :=
    match titleMatch with
    | some tm =>
      match tm.value with
      | some v =>
        let confidence := calculateMatchConfidence tm normalizedQuery
        if confidence > 3/5 then
          { intent := .titleMatch
            confidence := confidence
            shouldJumpToHeading := false
            displayInfo :=
              { showHeading := false, showAlias := false, showTitle := true,
                highlightType := "title", primaryMatch := v,
                matchedTitle := some v } }
        else headingStep
      | none => headingStep
    | none => headingStep
  let aliasStep : MatchAnalysis :=
    let aliasMatches := matchList.filter (fun m => m.key == "aliases")
    let best := bestAliasLoop normalizedQuery aliasMatches (none, 0, false)
    match best.1 with
    | some bestAlias =>
      { intent := .fileAlias
        confidence := if best.2.2 then 1 else best.2.1
        shouldJumpToHeading := false
        displayInfo :=
          { showHeading := false, showAlias := true, showTitle := false,
            highlightType := "alias", primaryMatch := bestAlias,
            matchedAlias := some bestAlias } }
    | none => titleStep
  match basenameMatch with
  | some bm =>
    if item.basename.isEmpty then aliasStep
    else
      let exactMatch := jsToLower item.basename = normalizedQuery
      let confidence := calculateMatchConfidence bm normalizedQuery
      if exactMatch then
        { intent := .exactFile
          confidence := 1
          shouldJumpToHeading := false
          displayInfo :=
            { showHeading := false, showAlias := false, showTitle := false,
              highlightType := "file", primaryMatch := item.basename } }
      else
        { intent := .partialFile
          confidence := confidence
          shouldJumpToHeading := false
          displayInfo :=
            { showHeading := false, showAlias := false, showTitle := false,
              highlightType := "file", primaryMatch := item.basename } }
  | none => aliasStep

/-! ## Heading-jump policy (`MatchAnalyzer.shouldJumpToHeading`, 350-395) -/

/-- `MatchAnalyzer.shouldJumpToHeading(analysis, query)`: `false` when
auto-jump is disabled or the analysis has no (truthy) matched heading;
otherwise dispatch on `settings.headingJumpStrategy || 'smart'`, where the
`smart`/default arm compares the confidence against a query-length-dependent
threshold (0.05 / 0.08 / 0.15 for lengths ≤3 / 4-6 / 7+). -/
def shouldJumpToHeading (settings : HomeTabSettings) (analysis : MatchAnalysis)
    (query : String) : Bool :=
  if !settings.autoJumpToHeading || !jsTruthy analysis.matchedHeading then false
  else
    let strategy :=
      if settings.headingJumpStrategy.isEmpty then "smart"
      else settings.headingJumpStrategy
    if strategy = "never" then false
    else if strategy = "always" then analysis.intent == .headingContent
    else
      if analysis.intent == .headingContent then
        let queryLength := query.length
        let threshold : ℚ :=
          if queryLength ≤ 3 then 1/20
          else if queryLength ≤ 6 then 2/25
          else 3/20
        decide (analysis.confidence > threshold)
      else false

/-- `MatchAnalyzer.getDisplayInfo(analysis, basenameMatch, headingMatch)`. -/
def getDisplayInfo (analysis : MatchAnalysis)
    (basenameMatch headingMatch : Option FuseMatch) : DisplayInfo :=
  let _ := headingMatch
  if analysis.shouldJumpToHeading && jsTruthy analysis.matchedHeading then
    { showHeading := true, showAlias := false, showTitle := false,
      highlightType := "heading",
      primaryMatch := analysis.matchedHeading.getD "" }
  else if analysis.displayInfo.showAlias || analysis.displayInfo.showTitle then
    analysis.displayInfo
  else
    let primaryMatch :=
      match basenameMatch with
      | some bm =>
        match bm.value with
        | some v => v
        | none => analysis.displayInfo.primaryMatch
      | none => analysis.displayInfo.primaryMatch
    { showHeading := false, showAlias := false, showTitle := false,
      highlightType := "file", primaryMatch := primaryMatch }

/-- `MatchAnalyzer.analyzeMatch(suggestion, query)`: find the per-field
matches, run the intent cascade, then decide the jump behaviour and the
display info (the debug logging and the `hasAnalyzed` diagnostic flag have
no functional effect and are omitted). -/
def analyzeMatch (settings : HomeTabSettings) (suggestion : FuseResult)
    (query : String) : MatchAnalysis :=
  let matchList := suggestion.matchList
  let item := suggestion.item
  let basenameMatch := matchList.find? (fun m => m.key == "basename")
  let aliasMatch := matchList.find? (fun m => m.key == "aliases")
  let titleMatch := matchList.find? (fun m => m.key == "title")
  let headingMatch := matchList.find? (fun m => m.key == "headings")
  let a0 := calculateMatchIntent query matchList basenameMatch aliasMatch
    titleMatch headingMatch item
  let a1 := { a0 with shouldJumpToHeading := shouldJumpToHeading settings a0 query }
  { a1 with displayInfo := getDisplayInfo a1 basenameMatch headingMatch }

/-! ## Incremental catalog updater (`HomeTabFileSuggester`) -/

/-- `Array.prototype.findIndex` over the file list with a path predicate:
the index of the first entry with that path, or `-1`. -/
def jsFindIndexPath (files : List SearchFile) (p : String) : Int :=
  match files.findIdx? (fun f => f.path == p) with
  | some i => (i : Int)
  | none => -1

/-- `files.splice(idx, 1)` as used by `updateSearchfilesList`: remove one
element at `idx`; a negative `idx` counts from the end (so the `-1` produced
by a failed `findIndex` removes the *last* element of a nonempty array). -/
def jsSplice1 (files : List SearchFile) (idx : Int) : List SearchFile :=
  let len : Int := files.length
  let start : Int := if idx < 0 then max (len + idx) 0 else min idx len
  files.take start.toNat ++ files.drop (start.toNat + 1)

/-- `HomeTabFileSuggester.updateSearchfilesList(file, oldPath?)` (the body
run once the metadata cache is clean).  `entry` stands both for the event's
file (via `entry.path`, `fileDeleted` standing for `file.deleted`) and for
`generateSearchFile(file)` — `generateSearchFile` lives in
`src/utils/getFilesUtils` (absent from `src/`); modelled from the spec: it
produces the catalog entry of a concrete file, preserving its path, with
`isUnresolved` false. -/
def updateSearchfilesList (files : List SearchFile) (entry : SearchFile)
    (fileDeleted : Bool) (oldPath : Option String) : List SearchFile :=
  let files1 :=
    match oldPath with
    | some op => jsSplice1 files (jsFindIndexPath files op) ++ [entry]
    | none => files
  if fileDeleted then
    jsSplice1 files1 (jsFindIndexPath files1 entry.path)
  else
    match files1.findIdx? (fun f => f.path == entry.path) with
    | none => files1 ++ [entry]
    | some fileIndex =>
      if (files1.getD fileIndex entry).isUnresolved then
        files1.set fileIndex entry
      else files1

/-- `Array.prototype.includes` on object elements, as used by
`updateUnresolvedFiles`: SameValueZero on references, i.e. two object
references are equal exactly when they are the same allocation — modelled by
the `oid` field. -/
def jsIncludes (files : List SearchFile) (u : SearchFile) : Bool :=
  files.any (fun f => f.oid == u.oid)

/-- `HomeTabFileSuggester.updateUnresolvedFiles()`, parameterized by the
recomputed unresolved list.  `getUnresolvedMarkdownFiles` lives in
`src/utils/getFilesUtils` (absent from `src/`); modelled from the spec: on a
"links resolved" signal it recomputes the set of unresolved link targets,
returning freshly allocated entry objects.  The source pushes each
recomputed entry whose object reference is not already in `this.files`
(mutating `this.files` as it iterates, hence the fold). -/
def updateUnresolvedFiles (files unresolvedFiles : List SearchFile) :
    List SearchFile :=
  unresolvedFiles.foldl
    (fun fs u => if jsIncludes fs u then fs else fs ++ [u]) files

/-- The catalog invariant stated by the spec: `path` is unique across all
entries. -/
def pathsUnique (files : List SearchFile) : Prop :=
  (files.map (fun f => f.path)).Nodup

instance (files : List SearchFile) : Decidable (pathsUnique files) := by
  unfold pathsUnique; infer_instance

/-- `HomeTabFileSuggester.getSuggestions(inputStr)`: trim the input; an
empty trimmed query yields `[]`, otherwise delegate to
`fuzzySearch.rawSearch(query, maxResults)` (passed in as `search`, since the
fuzzy engine is an external collaborator closing over the catalog). -/
def getSuggestions (search : String → Option Nat → List FuseResult)
    (maxResults : Option Nat) (inputStr : String) : List FuseResult :=
  let query := jsTrim inputStr
  if query.isEmpty then [] else search query maxResults

/-! ## Relevance re-ranking comparator (`fuzzySearch.rawSearch`, 49-145) -/

/-- The quality record returned by `getMatchQuality`:
`{ ratio, priority, isExact }`. -/
structure MatchQuality where
  ratio : ℚ
  priority : ℚ
  isExact : Bool
  deriving Repr, DecidableEq

/-- The alias loop of `getMatchQuality` (source lines 85-102): fold over the
alias matches carrying `(bestRatio, bestPriority)`; an exact alias
short-circuits to `{1.0, 1, true}`. -/
def aliasQualityLoop (queryLower : String) :
    List FuseMatch → ℚ × ℚ → Sum MatchQuality (ℚ × ℚ)
  | [], st => Sum.inr st
  | m :: rest, st =>
    match m.value with
    | some v =>
      if v.isEmpty then aliasQualityLoop queryLower rest st
      else
        let aliasValue := jsToLower v
        if aliasValue = queryLower then Sum.inl ⟨1, 1, true⟩
        else
          let ratio := (queryLower.length : ℚ) / (aliasValue.length : ℚ)
          let st' := if ratio > st.1 then (ratio, (20 : ℚ)) else st
          aliasQualityLoop queryLower rest st'
    | none => aliasQualityLoop queryLower rest st

/-- `getMatchQuality(result)` from the sort comparator of
`fuzzySearch.rawSearch`: best matched-length ratio and field priority over
basename (10), aliases (20) and title (30); an exact field value
short-circuits to `{1.0, 1, true}`; heading matches are never examined, so a
candidate matched only in headings keeps the initial `{0, 999, false}`. -/
def getMatchQuality (query : String) (result : FuseResult) : MatchQuality :=
  let queryLower := jsToLower query
  let st0 : ℚ × ℚ := (0, 999)
  let afterBasename : Sum MatchQuality (ℚ × ℚ) :=
    match result.matchList.find? (fun m => m.key == "basename") with
    | some m =>
      match m.value with
      | some v =>
        if v.isEmpty then Sum.inr st0
        else
          let basename := jsToLower v
          if basename = queryLower then Sum.inl ⟨1, 1, true⟩
          else
            let ratio := (queryLower.length : ℚ) / (basename.length : ℚ)
            if ratio > st0.1 then Sum.inr (ratio, 10) else Sum.inr st0
      | none => Sum.inr st0
    | none => Sum.inr st0
  match afterBasename with
  | Sum.inl q => q
  | Sum.inr st1 =>
    match aliasQualityLoop queryLower
        (result.matchList.filter (fun m => m.key == "aliases")) st1 with
    | Sum.inl q => q
    | Sum.inr st2 =>
      let afterTitle : Sum MatchQuality (ℚ × ℚ) :=
        match result.matchList.find? (fun m => m.key == "title") with
        | some m =>
          match m.value with
          | some v =>
            if v.isEmpty then Sum.inr st2
            else
              let title := jsToLower v
              if title = queryLower then Sum.inl ⟨1, 1, true⟩
              else
                let ratio := (queryLower.length : ℚ) / (title.length : ℚ)
                if ratio > st2.1 then Sum.inr (ratio, 30) else Sum.inr st2
          | none => Sum.inr st2
        | none => Sum.inr st2
      match afterTitle with
      | Sum.inl q => q
      | Sum.inr st3 => ⟨st3.1, st3.2, false⟩

/-- The sort comparator of `fuzzySearch.rawSearch` (source lines 53-142):
exact matches first, then by matched-length ratio when it differs by more
than 0.01, then by field priority (smaller first), finally by the raw Fuse
score.  A negative value sorts `a` before `b`. -/
def compareResults (query : String) (a b : FuseResult) : ℚ :=
  let aScore := a.score.getD 1
  let bScore := b.score.getD 1
  let aQuality := getMatchQuality query a
  let bQuality := getMatchQuality query b
  if aQuality.isExact ≠ bQuality.isExact then
    if aQuality.isExact then -1 else 1
  else
    let ratioDiff := bQuality.ratio - aQuality.ratio
    if |ratioDiff| > 1/100 then ratioDiff
    else if aQuality.priority ≠ bQuality.priority then
      aQuality.priority - bQuality.priority
    else aScore - bScore

/-! ## Helper lemmas -/

/-- The similarity computed by the source agrees with the spec-side
formulation: the longer string's length is exactly `maxLen`. -/
theorem calculateSimilarity_eq_specSimilarity (a b : String) :
    calculateSimilarity a b = specSimilarity a b := by
  unfold calculateSimilarity specSimilarity
  by_cases h : a.length > b.length
  · simp only [if_pos h, Nat.max_eq_left (Nat.le_of_lt h)]
  · simp only [if_neg h, Nat.max_eq_right (Nat.le_of_not_lt h)]

/-- The final display-info pass of `analyzeMatch` does not change the
intent, the confidence or the matched heading, and its jump decision is
`shouldJumpToHeading` applied to the cascade's output. -/
theorem analyzeMatch_fields (settings : HomeTabSettings) (sugg : FuseResult)
    (query : String) :
    (analyzeMatch settings sugg query).intent =
      (calculateMatchIntent query sugg.matchList
        (sugg.matchList.find? (fun m => m.key == "basename"))
        (sugg.matchList.find? (fun m => m.key == "aliases"))
        (sugg.matchList.find? (fun m => m.key == "title"))
        (sugg.matchList.find? (fun m => m.key == "headings"))
        sugg.item).intent ∧
    (analyzeMatch settings sugg query).confidence =
      (calculateMatchIntent query sugg.matchList
        (sugg.matchList.find? (fun m => m.key == "basename"))
        (sugg.matchList.find? (fun m => m.key == "aliases"))
        (sugg.matchList.find? (fun m => m.key == "title"))
        (sugg.matchList.find? (fun m => m.key == "headings"))
        sugg.item).confidence ∧
    (analyzeMatch settings sugg query).matchedHeading =
      (calculateMatchIntent query sugg.matchList
        (sugg.matchList.find? (fun m => m.key == "basename"))
        (sugg.matchList.find? (fun m => m.key == "aliases"))
        (sugg.matchList.find? (fun m => m.key == "title"))
        (sugg.matchList.find? (fun m => m.key == "headings"))
        sugg.item).matchedHeading ∧
    (analyzeMatch settings sugg query).shouldJumpToHeading =
      shouldJumpToHeading settings
        (calculateMatchIntent query sugg.matchList
          (sugg.matchList.find? (fun m => m.key == "basename"))
          (sugg.matchList.find? (fun m => m.key == "aliases"))
          (sugg.matchList.find? (fun m => m.key == "title"))
          (sugg.matchList.find? (fun m => m.key == "headings"))
          sugg.item) query := by
  refine ⟨rfl, rfl, rfl, ?_⟩
  simp only [analyzeMatch, shouldJumpToHeading]

/-! ## C9 -/

/-- C9: for every empty or whitespace-only query string, `getSuggestions`
returns the empty list — for *every* search function and every result
limit, hence independently of the catalog and without consulting the
ranking at all. -/
theorem c9_empty_query_no_suggestions
    (search : String → Option Nat → List FuseResult) (maxResults : Option Nat)
    (inputStr : String) (h : (jsTrim inputStr).isEmpty = true) :
    getSuggestions search maxResults inputStr = [] := by
  simp [getSuggestions, h]

/-- Witness for C9: the whitespace-only input `"  "` yields no suggestions
even though the search function would report a hit. -/
theorem c9_witness :
    (jsTrim "  ").isEmpty = true ∧
      getSuggestions (fun _ _ => [{ item := { basename := "x" } }]) (some 5)
        "  " = [] :=
  ⟨by decide, c9_empty_query_no_suggestions _ (some 5) "  " (by decide)⟩

/-! ## C10 -/

/-- C10: if the auto-jump setting is disabled, or the analysis carries no
(truthy) matched heading, then `analyzeMatch` reports
`shouldJumpToHeading = false`, whatever the configured strategy
(including `always`). -/
theorem c10_no_jump_when_disabled_or_no_heading
    (settings : HomeTabSettings) (sugg : FuseResult) (query : String)
    (h : settings.autoJumpToHeading = false ∨
      jsTruthy (analyzeMatch settings sugg query).matchedHeading = false) :
    (analyzeMatch settings sugg query).shouldJumpToHeading = false := by
  obtain ⟨-, -, hmh, hsj⟩ := analyzeMatch_fields settings sugg query
  rw [hmh] at h
  rw [hsj]
  unfold shouldJumpToHeading
  rcases h with h | h
  · simp [h]
  · simp [h]

/-- Witness for C10: with the `always` strategy but auto-jump disabled, a
heading-matched candidate still gets `shouldJumpToHeading = false`. -/
theorem c10_witness :
    (HomeTabSettings.mk false "always").autoJumpToHeading = false ∧
    (analyzeMatch ⟨false, "always"⟩
        ⟨{ basename := "note" }, none,
          [⟨"headings", some "Intro", [(0, 1)]⟩]⟩
        "in").shouldJumpToHeading = false :=
  ⟨rfl,
    c10_no_jump_when_disabled_or_no_heading _ _ _ (Or.inl rfl)⟩

/-! ## C7 -/

/-- C7: with the heading-jump feature enabled, a (truthy) matched heading
and `headingJumpStrategy = "smart"`, the policy returns `true` exactly when
the intent is heading-content and the confidence strictly exceeds the
length-tiered threshold: 0.05 for queries of ≤ 3 characters, 0.08 for 4-6,
0.15 for 7 or more. -/
theorem c7_smart_jump_iff_threshold
    (settings : HomeTabSettings) (analysis : MatchAnalysis) (query : String)
    (hauto : settings.autoJumpToHeading = true)
    (hheading : jsTruthy analysis.matchedHeading = true)
    (hstrat : settings.headingJumpStrategy = "smart") :
    shouldJumpToHeading settings analysis query = true ↔
      analysis.intent = MatchIntent.headingContent ∧
        analysis.confidence >
          (if query.length ≤ 3 then (1/20 : ℚ)
           else if query.length ≤ 6 then 2/25 else 3/20) := by
  unfold shouldJumpToHeading
  rw [hauto, hheading, hstrat]
  by_cases hint : analysis.intent = MatchIntent.headingContent
  · simp [hint]
  · simp [hint]

/-- Witness for C7: for the 2-character query `"ab"` (threshold 0.05), a
heading-content analysis of confidence 0.06 jumps and one of confidence
0.04 does not. -/
theorem c7_witness :
    (shouldJumpToHeading ⟨true, "smart"⟩
        ⟨.headingContent, 6/100, false, some "History",
          ⟨true, false, false, "heading", "History", none, none⟩⟩
        "ab" = true) ∧
    (shouldJumpToHeading ⟨true, "smart"⟩
        ⟨.headingContent, 4/100, false, some "History",
          ⟨true, false, false, "heading", "History", none, none⟩⟩
        "ab" = false) := by
  have hlen : ("ab" : String).length = 2 := rfl
  constructor
  · exact (c7_smart_jump_iff_threshold ⟨true, "smart"⟩ _ "ab" rfl (by decide)
      rfl).mpr ⟨rfl, by norm_num [hlen]⟩
  · rw [Bool.eq_false_iff]
    intro hjump
    have h := (c7_smart_jump_iff_threshold ⟨true, "smart"⟩ _ "ab" rfl
      (by decide) rfl).mp hjump
    norm_num [hlen] at h

/-! ## C1 -/

/-- When a basename match is present and the item's basename is nonempty,
the cascade decides between exact-file and partial-file on the basename
alone, never reaching the alias/title/heading steps. -/
theorem calculateMatchIntent_basename_some
    (query : String) (matchList : List FuseMatch) (bm : FuseMatch)
    (am tm hm : Option FuseMatch) (item : SearchFile)
    (hne : item.basename.isEmpty = false) :
    calculateMatchIntent query matchList (some bm) am tm hm item =
      if jsToLower item.basename = jsTrim (jsToLower query) then
        ⟨.exactFile, 1, false, none,
          ⟨false, false, false, "file", item.basename, none, none⟩⟩
      else
        ⟨.partialFile,
          calculateMatchConfidence bm (jsTrim (jsToLower query)), false, none,
          ⟨false, false, false, "file", item.basename, none, none⟩⟩ := by
  unfold calculateMatchIntent
  simp [hne]

/-- C1, counterexample to the claimed cascade order: this candidate carries
both an alias span (on `"zzb"`) and a non-exact basename span (basename
`"ab"`, query `"b"`), yet the classifier returns file-partial, not
file-alias — the source checks the basename branch before the alias
branch. -/
theorem c1_counterexample :
    (analyzeMatch ⟨true, "smart"⟩
        ⟨{ basename := "ab" }, none,
          [⟨"basename", some "ab", [(1, 1)]⟩,
           ⟨"aliases", some "zzb", [(2, 2)]⟩]⟩
        "b").intent = MatchIntent.partialFile ∧
    (analyzeMatch ⟨true, "smart"⟩
        ⟨{ basename := "ab" }, none,
          [⟨"basename", some "ab", [(1, 1)]⟩,
           ⟨"aliases", some "zzb", [(2, 2)]⟩]⟩
        "b").intent ≠ MatchIntent.fileAlias := by
  constructor
  · rfl
  · decide

/-- C1 (amended): a non-exact basename span is classified *before* any
alias span — every candidate with a basename span, a nonempty basename not
equal (case-insensitively, query-trimmed) to the query, and an alias span
is classified file-partial, not file-alias. -/
theorem c1_partial_basename_beats_aliases
    (settings : HomeTabSettings) (sugg : FuseResult) (query : String)
    (hbase : (sugg.matchList.find? (fun m => m.key == "basename")).isSome
      = true)
    (_halias : (sugg.matchList.find? (fun m => m.key == "aliases")).isSome
      = true)
    (hne : sugg.item.basename.isEmpty = false)
    (hnex : jsToLower sugg.item.basename ≠ jsTrim (jsToLower query)) :
    (analyzeMatch settings sugg query).intent = MatchIntent.partialFile := by
  obtain ⟨bm, hbm⟩ := Option.isSome_iff_exists.mp hbase
  obtain ⟨hint, -, -, -⟩ := analyzeMatch_fields settings sugg query
  rw [hint, hbm, calculateMatchIntent_basename_some _ _ _ _ _ _ _ hne,
    if_neg hnex]

/-- Witness for C1 (amended), at the counterexample's candidate. -/
theorem c1_witness :
    (jsToLower "ab" ≠ jsTrim (jsToLower "b")) ∧
    (analyzeMatch ⟨true, "smart"⟩
        ⟨{ basename := "ab" }, none,
          [⟨"basename", some "ab", [(1, 1)]⟩,
           ⟨"aliases", some "zzb", [(2, 2)]⟩]⟩
        "b").intent = MatchIntent.partialFile :=
  ⟨by decide,
    c1_partial_basename_beats_aliases _ _ _ (by decide) (by decide)
      (by decide) (by decide)⟩

/-! ## C5 -/

/-- C5, counterexample: the basename `"a "` (with a trailing space) equals
the query `"a"` under a case-insensitive comparison in which *both* sides
are trimmed, yet the classifier does not return exact-file — the source
trims only the query (`item.basename.toLowerCase() ===
query.toLowerCase().trim()`), so the untrimmed basename fails the test. -/
theorem c5_counterexample :
    jsTrim (jsToLower "a ") = jsTrim (jsToLower "a") ∧
    (analyzeMatch ⟨true, "smart"⟩
        ⟨{ basename := "a " }, none, [⟨"basename", some "a ", [(0, 0)]⟩]⟩
        "a").intent ≠ MatchIntent.exactFile := by
  constructor
  · decide
  · decide

/-- C5 (amended): for every candidate with a basename span whose (untrimmed)
lowercased basename equals the lowercased *and trimmed* query, the
classifier returns exact-file with confidence exactly 1. -/
theorem c5_exact_basename_match
    (settings : HomeTabSettings) (sugg : FuseResult) (query : String)
    (hbase : (sugg.matchList.find? (fun m => m.key == "basename")).isSome
      = true)
    (hne : sugg.item.basename.isEmpty = false)
    (hex : jsToLower sugg.item.basename = jsTrim (jsToLower query)) :
    (analyzeMatch settings sugg query).intent = MatchIntent.exactFile ∧
      (analyzeMatch settings sugg query).confidence = 1 := by
  obtain ⟨bm, hbm⟩ := Option.isSome_iff_exists.mp hbase
  obtain ⟨hint, hconf, -, -⟩ := analyzeMatch_fields settings sugg query
  constructor
  · rw [hint, hbm, calculateMatchIntent_basename_some _ _ _ _ _ _ _ hne,
      if_pos hex]
  · rw [hconf, hbm, calculateMatchIntent_basename_some _ _ _ _ _ _ _ hne,
      if_pos hex]

/-- Witness for C5 (amended): query `"plan"` against basename `"Plan"`. -/
theorem c5_witness :
    (jsToLower "Plan" = jsTrim (jsToLower "plan")) ∧
    ((analyzeMatch ⟨true, "smart"⟩
        ⟨{ basename := "Plan" }, none,
          [⟨"basename", some "Plan", [(0, 3)]⟩]⟩
        "plan").intent = MatchIntent.exactFile ∧
      (analyzeMatch ⟨true, "smart"⟩
        ⟨{ basename := "Plan" }, none,
          [⟨"basename", some "Plan", [(0, 3)]⟩]⟩
        "plan").confidence = 1) :=
  ⟨by decide,
    c5_exact_basename_match _ _ _ (by decide) (by decide) (by decide)⟩

/-! ## C2 -/

/-- C2, failing input: deleting a path that is *not* in the catalog is not a
no-op — `findIndex` returns `-1` and `splice(-1, 1)` removes the last
entry, here `"two.md"`.  (With a present path, the code does remove exactly
that entry, as the second conjunct shows.) -/
theorem c2_delete_absent_removes_last_entry :
    (updateSearchfilesList
        [⟨"", "one", "one.md", true, false, 1⟩,
         ⟨"", "two", "two.md", true, false, 2⟩]
        ⟨"", "gone", "gone.md", true, false, 9⟩ true none
      = [⟨"", "one", "one.md", true, false, 1⟩]) ∧
    (updateSearchfilesList
        [⟨"", "one", "one.md", true, false, 1⟩,
         ⟨"", "two", "two.md", true, false, 2⟩]
        ⟨"", "one", "one.md", true, false, 1⟩ true none
      = [⟨"", "two", "two.md", true, false, 2⟩]) := by
  constructor
  · decide
  · decide

/-! ## C8 -/

/-- C8, failing input: a rename whose old path (`"missing.md"`) is not in
the catalog is *not* a pure create — `findIndex` returns `-1`, so
`splice(-1, 1)` removes the last pre-existing entry (`"two.md"`) before the
new entry is appended. -/
theorem c8_rename_absent_oldpath_drops_last_entry :
    (updateSearchfilesList
        [⟨"", "one", "one.md", true, false, 1⟩,
         ⟨"", "two", "two.md", true, false, 2⟩]
        ⟨"", "three", "three.md", true, false, 3⟩ false (some "missing.md")
      = [⟨"", "one", "one.md", true, false, 1⟩,
         ⟨"", "three", "three.md", true, false, 3⟩]) ∧
    (([⟨"", "one", "one.md", true, false, 1⟩,
       ⟨"", "three", "three.md", true, false, 3⟩] : List SearchFile) ≠
     [⟨"", "one", "one.md", true, false, 1⟩,
      ⟨"", "two", "two.md", true, false, 2⟩,
      ⟨"", "three", "three.md", true, false, 3⟩]) := by
  constructor
  · decide
  · decide

/-! ## C4 -/

/-- C4, failing input: the catalog holds an unresolved entry for `"a.md"`
(object id 0); the recomputed unresolved list holds a *fresh* object (id 1)
with the same path.  `Array.includes` compares object references, so the
fresh object is "not present" and is appended, breaking path uniqueness. -/
theorem c4_resolve_unresolved_duplicates_path :
    ((updateUnresolvedFiles
        [⟨"a.md", "a", "a.md", false, true, 0⟩]
        [⟨"a.md", "a", "a.md", false, true, 1⟩]).map (fun f => f.path)
      = ["a.md", "a.md"]) ∧
    pathsUnique [⟨"a.md", "a", "a.md", false, true, 0⟩] ∧
    ¬ pathsUnique (updateUnresolvedFiles
        [⟨"a.md", "a", "a.md", false, true, 0⟩]
        [⟨"a.md", "a", "a.md", false, true, 1⟩]) := by
  refine ⟨by decide, by decide, by decide⟩

/-! ## C3 -/

/-- If candidate `b`'s quality is the untouched initial state `(ratio 0,
priority 999, no exact match)` and candidate `a` has the same raw score, a
nonnegative quality ratio and a priority of at most 999, then `a` sorts at
or before `b`. -/

theorem compareResults_le_of_quality (q : String) (a b : FuseResult)
    (hsc : a.score = b.score)
    (hb : getMatchQuality q b = ⟨0, 999, false⟩)
    (hra : 0 ≤ (getMatchQuality q a).ratio)
    (hpa : (getMatchQuality q a).priority ≤ 999) :
    compareResults q a b ≤ 0 := by
  unfold compareResults
  rw [hb, hsc]
  rcases hA : getMatchQuality q a with ⟨r, p, ex⟩
  rw [hA] at hra hpa
  simp only [MatchQuality.ratio, MatchQuality.priority] at hra hpa
  cases ex with
  | true => norm_num
  | false =>
    simp only [ne_eq, not_true_eq_false, not_false_eq_true, if_false, ite_false]
    split_ifs with h1 h2 <;> linarith

/-- Quality bounds for a candidate whose single span is on `basename`:
nonnegative ratio, priority at most 999. -/
theorem getMatchQuality_single_basename (q : String) (item : SearchFile)
    (s : Option ℚ) (val : Option String) (idx : List (Nat × Nat)) :
    0 ≤ (getMatchQuality q ⟨item, s, [⟨"basename", val, idx⟩]⟩).ratio ∧
    (getMatchQuality q ⟨item, s, [⟨"basename", val, idx⟩]⟩).priority ≤ 999 := by
  have hfB : List.find? (fun m => m.key == "basename")
      ([⟨"basename", val, idx⟩] : List FuseMatch) = some ⟨"basename", val, idx⟩ := rfl
  have hfA : List.filter (fun m => m.key == "aliases")
      ([⟨"basename", val, idx⟩] : List FuseMatch) = [] := rfl
  have hfT : List.find? (fun m => m.key == "title")
      ([⟨"basename", val, idx⟩] : List FuseMatch) = none := rfl
  simp only [getMatchQuality, hfB, hfA, hfT, aliasQualityLoop]
  cases val with
  | none => norm_num
  | some v =>
    by_cases hv : v.isEmpty
    · simp only [hv]; norm_num
    · simp only [hv]
      by_cases hex : jsToLower v = jsToLower q
      · simp only [if_pos hex]; norm_num
      · simp only [if_neg hex]
        by_cases hr : (0 : ℚ) < ((jsToLower q).length : ℚ) / ((jsToLower v).length : ℚ)
        · rw [if_pos hr]
          exact ⟨le_of_lt hr, by norm_num⟩
        · rw [if_neg hr]
          norm_num

/-- A candidate whose single span is on `headings` keeps the initial
quality `(0, 999, false)`: `getMatchQuality` never examines heading
matches. -/
theorem getMatchQuality_single_headings (q : String) (item : SearchFile)
    (s : Option ℚ) (val : Option String) (idx : List (Nat × Nat)) :
    getMatchQuality q ⟨item, s, [⟨"headings", val, idx⟩]⟩ = ⟨0, 999, false⟩ := rfl

/-- Quality bounds for a candidate whose single span is on `aliases`. -/
theorem getMatchQuality_single_aliases (q : String) (item : SearchFile)
    (s : Option ℚ) (val : Option String) (idx : List (Nat × Nat)) :
    0 ≤ (getMatchQuality q ⟨item, s, [⟨"aliases", val, idx⟩]⟩).ratio ∧
    (getMatchQuality q ⟨item, s, [⟨"aliases", val, idx⟩]⟩).priority ≤ 999 := by
  have hfB : List.find? (fun m => m.key == "basename")
      ([⟨"aliases", val, idx⟩] : List FuseMatch) = none := rfl
  have hfA : List.filter (fun m => m.key == "aliases")
      ([⟨"aliases", val, idx⟩] : List FuseMatch) = [⟨"aliases", val, idx⟩] := rfl
  have hfT : List.find? (fun m => m.key == "title")
      ([⟨"aliases", val, idx⟩] : List FuseMatch) = none := rfl
  simp only [getMatchQuality, hfB, hfA, hfT, aliasQualityLoop]
  cases val with
  | none => norm_num
  | some v =>
    by_cases hv : v.isEmpty
    · simp only [hv]; norm_num
    · simp only [hv]
      by_cases hex : jsToLower v = jsToLower q
      · simp only [if_pos hex]; norm_num
      · simp only [if_neg hex]
        by_cases hr : (0 : ℚ) < ((jsToLower q).length : ℚ) / ((jsToLower v).length : ℚ)
        · rw [if_pos hr]
          exact ⟨le_of_lt hr, by norm_num⟩
        · rw [if_neg hr]
          norm_num

/-- Quality bounds for a candidate whose single span is on `title`. -/
theorem getMatchQuality_single_title (q : String) (item : SearchFile)
    (s : Option ℚ) (val : Option String) (idx : List (Nat × Nat)) :
    0 ≤ (getMatchQuality q ⟨item, s, [⟨"title", val, idx⟩]⟩).ratio ∧
    (getMatchQuality q ⟨item, s, [⟨"title", val, idx⟩]⟩).priority ≤ 999 := by
  have hfB : List.find? (fun m => m.key == "basename")
      ([⟨"title", val, idx⟩] : List FuseMatch) = none := rfl
  have hfA : List.filter (fun m => m.key == "aliases")
      ([⟨"title", val, idx⟩] : List FuseMatch) = [] := rfl
  have hfT : List.find? (fun m => m.key == "title")
      ([⟨"title", val, idx⟩] : List FuseMatch) = some ⟨"title", val, idx⟩ := rfl
  simp only [getMatchQuality, hfB, hfA, hfT, aliasQualityLoop]
  cases val with
  | none => norm_num
  | some v =>
    by_cases hv : v.isEmpty
    · simp only [hv]; norm_num
    · simp only [hv]
      by_cases hex : jsToLower v = jsToLower q
      · simp only [if_pos hex]; norm_num
      · simp only [if_neg hex]
        by_cases hr : (0 : ℚ) < ((jsToLower q).length : ℚ) / ((jsToLower v).length : ℚ)
        · rw [if_pos hr]
          exact ⟨le_of_lt hr, by norm_num⟩
        · rw [if_neg hr]
          norm_num

/-- C3 (amended): in the re-ranking comparator, for candidates identical
except for the field carrying their single span, a basename-, alias- or
*title*-matched candidate always sorts at or before a headings-matched one:
headings rank lowest (priority 999), *below* title (priority 30), contrary
to the claimed basename/alias > headings > title ordering. -/
theorem c3_field_priority_order (q : String) (val : Option String)
    (idx : List (Nat × Nat)) (s : Option ℚ) (item : SearchFile) :
    compareResults q ⟨item, s, [⟨"basename", val, idx⟩]⟩
        ⟨item, s, [⟨"headings", val, idx⟩]⟩ ≤ 0 ∧
    compareResults q ⟨item, s, [⟨"aliases", val, idx⟩]⟩
        ⟨item, s, [⟨"headings", val, idx⟩]⟩ ≤ 0 ∧
    compareResults q ⟨item, s, [⟨"title", val, idx⟩]⟩
        ⟨item, s, [⟨"headings", val, idx⟩]⟩ ≤ 0 :=
  ⟨compareResults_le_of_quality q _ _ rfl
      (getMatchQuality_single_headings q item s val idx)
      (getMatchQuality_single_basename q item s val idx).1
      (getMatchQuality_single_basename q item s val idx).2,
   compareResults_le_of_quality q _ _ rfl
      (getMatchQuality_single_headings q item s val idx)
      (getMatchQuality_single_aliases q item s val idx).1
      (getMatchQuality_single_aliases q item s val idx).2,
   compareResults_le_of_quality q _ _ rfl
      (getMatchQuality_single_headings q item s val idx)
      (getMatchQuality_single_title q item s val idx).1
      (getMatchQuality_single_title q item s val idx).2⟩

/-- C3, counterexample: two candidates identical except that one's single
span is on `headings` and the other's on `title` (same value `"ab"`, same
span, same score, query `"a"`): the comparator returns `1/2 > 0`, i.e. the
headings-matched candidate sorts strictly *after* the title-matched one,
refuting the claim that headings outrank title. -/
theorem c3_counterexample :
    (0 : ℚ) < compareResults "a"
      ⟨{ basename := "one" }, some 0, [⟨"headings", some "ab", [(0, 0)]⟩]⟩
      ⟨{ basename := "one" }, some 0, [⟨"title", some "ab", [(0, 0)]⟩]⟩ := by
  have hH : getMatchQuality "a"
      ⟨{ basename := "one" }, some 0, [⟨"headings", some "ab", [(0, 0)]⟩]⟩
      = ⟨0, 999, false⟩ := rfl
  have hT : getMatchQuality "a"
      ⟨{ basename := "one" }, some 0, [⟨"title", some "ab", [(0, 0)]⟩]⟩
      = ⟨1/2, 30, false⟩ := by
    have hfB : List.find? (fun m => m.key == "basename")
        ([⟨"title", some "ab", [(0, 0)]⟩] : List FuseMatch) = none := rfl
    have hfA : List.filter (fun m => m.key == "aliases")
        ([⟨"title", some "ab", [(0, 0)]⟩] : List FuseMatch) = [] := rfl
    have hfT : List.find? (fun m => m.key == "title")
        ([⟨"title", some "ab", [(0, 0)]⟩] : List FuseMatch)
        = some ⟨"title", some "ab", [(0, 0)]⟩ := rfl
    have hie : ("ab" : String).isEmpty = false := rfl
    have hex : jsToLower "ab" ≠ jsToLower "a" := by decide
    have hlq : (jsToLower "a").length = 1 := rfl
    have hlv : (jsToLower "ab").length = 2 := rfl
    simp only [getMatchQuality, hfB, hfA, hfT, aliasQualityLoop, hie,
      if_neg hex, hlq, hlv]
    norm_num
  unfold compareResults
  rw [hH, hT]
  norm_num
  rw [show |(1 : ℚ)/2| = 1/2 from abs_of_nonneg (by norm_num)]
  norm_num

/-! ## C6 -/

/-- C6, counterexample: for the span `[(0,0)]` on field value `"ab"` and
query `"ab"`, the code's confidence is 1.0 (the `value === normalizedQuery`
early return), while the spec's formula gives
`lengthRatio × positionWeight × similarity = 1/2 × 1 × 1 = 1/2` — the
single span covers only one of the two query characters. -/
theorem c6_counterexample :
    calculateMatchConfidence ⟨"basename", some "ab", [(0, 0)]⟩ "ab" = 1 ∧
    specConfidence (jsToLower "ab") [(0, 0)] (jsToLower "ab") = 1/2 ∧
    (1 : ℚ) ≠ 1/2 := by
  refine ⟨rfl, ?_, by norm_num⟩
  have hab : jsToLower "ab" = "ab" := rfl
  have hlen : ("ab" : String).length = 2 := rfl
  have hmx : maxMatchLength [(0, 0)] = 1 := rfl
  have hlev : levenshteinDistance ['a', 'b'] ['a', 'b'] = 0 := rfl
  rw [hab]
  unfold specConfidence specSimilarity
  simp only [hmx, hlen]
  norm_num [min_def, hlev]

/-- C6 (amended): the spec's product formula is what the code computes in
the non-degenerate case — whenever the match has a nonempty value whose
lowercasing differs from the lowercased query (and at least one span, as
Fuse guarantees).  When the lowercased value *equals* the lowercased query
the code instead returns 1.0 outright (see the counterexample), and a
missing or empty value yields 0. -/
theorem c6_confidence_formula (m : FuseMatch) (q v : String)
    (hv : m.value = some v) (hne : v.isEmpty = false)
    (hdiff : jsToLower v ≠ jsToLower q) (hidx : m.indices ≠ []) :
    calculateMatchConfidence m q =
      specConfidence (jsToLower v) m.indices (jsToLower q) := by
  unfold calculateMatchConfidence specConfidence
  rw [hv]
  simp only [hne, Bool.false_eq_true, if_false, if_neg hdiff]
  rw [calculateSimilarity_eq_specSimilarity]
  cases hidx2 : m.indices with
  | nil => exact absurd hidx2 hidx
  | cons p rest => rfl

/-- Witness for C6 (amended): value `"abc"`, query `"ax"`, span `[(0,0)]`. -/
theorem c6_witness :
    (jsToLower "abc" ≠ jsToLower "ax") ∧
    calculateMatchConfidence ⟨"basename", some "abc", [(0, 0)]⟩ "ax" =
      specConfidence (jsToLower "abc") [(0, 0)] (jsToLower "ax") :=
  ⟨by decide,
    c6_confidence_formula _ "ax" "abc" rfl rfl (by decide) (by decide)⟩

end HomeTab
